import Mathlib

/-!
Verification of the review subsystem of the gowithflow backend.

The definitions below are a shallow embedding of the JavaScript source:

* src/models/Review.js          — reviewSchema, its validators, the unique
  compound index on (job, reviewer, recipient), and the static
  getReviewStats aggregation;
* src/controllers/reviewController.js — createReview, getUserReviews,
  updateReview, deleteReview, reportReview, markReviewAsHelpful;
* src/controllers/adminController.js  — handleReportedReview.

Mongo object ids are modelled as Nat; documents as structures whose fields
are exactly the schema paths; the document store as a `List Review`;
fallible HTTP handlers return a response value paired with the store that
results from the call.  Floating point does not arise: ratings are small
integers and the aggregation averages are modelled exactly in ℚ.
-/

namespace GWF

/-- A Review document.  Fields are exactly the paths of reviewSchema in
src/models/Review.js (plus the Mongo `_id`, here `rid`, and the
`createdAt` timestamp added by `timestamps: true`, counted in days).
The five category scores are optional in the schema (min 1 / max 5 when
present); the report `reports` array is never written by any controller in
the repository and is omitted. -/
structure Review where
  rid : Nat
  job : Nat
  reviewer : Nat
  recipient : Nat
  rating : Nat
  comment : String
  isPublic : Bool
  rtype : String
  communication : Option Nat
  qualityOfWork : Option Nat
  valueForMoney : Option Nat
  expertise : Option Nat
  professionalism : Option Nat
  helpfulVotes : List Nat
  isReported : Bool
  reportReason : Option String
  reportedBy : Option Nat
  reportedAt : Option Nat
  isHidden : Bool
  moderationReason : Option String
  createdAt : Nat
deriving Repr, DecidableEq

/-- A Job document as read by the review controller: `status`, the `client`
and `hiredFreelancer` references (optional), and `title`. -/
structure Job where
  status : String
  client : Option Nat
  hiredFreelancer : Option Nat
  title : String
deriving Repr, DecidableEq

/-- A User document as read by the review controller: only the role is
consulted. -/
structure User where
  role : String
deriving Repr, DecidableEq

/-- The external collaborators of the review controller: the Job and User
collections, as association lists keyed by id. -/
structure Env where
  jobs : List (Nat × Job)
  users : List (Nat × User)
deriving Repr, DecidableEq

/-- An HTTP response as produced by successResponse / errorResponse in
src/utils/apiResponse.js (and by the local helpers of adminController.js):
a success flag, a status code and a message. -/
structure Resp where
  success : Bool
  status : Nat
  message : String
deriving Repr, DecidableEq

/-- successResponse res status message. -/
def apiOk (status : Nat) (message : String) : Resp :=
  { success := true, status := status, message := message }

/-- errorResponse res status message. -/
def apiErr (status : Nat) (message : String) : Resp :=
  { success := false, status := status, message := message }

/-- An error thrown by the storage layer: mongoose validation errors carry
no numeric `code`; Mongo duplicate-key errors carry `code` 11000 and a
`keyPattern` naming the violated index fields. -/
structure DbErr where
  code : Option Nat
  keyPattern : List String
  message : String
deriving Repr, DecidableEq

/-- A category score is valid when absent, or between 1 and 5 (reviewSchema
min/max validators on communication..professionalism). -/
def optScoreValid (x : Option Nat) : Bool :=
  match x with
  | none => true
  | some v => 1 ≤ v && v ≤ 5

/-- Mongoose validation of reviewSchema: rating required in [1,5], comment
required with trimmed minlength 10, type restricted to the two enum
values, category scores in [1,5] when present. -/
def reviewValid (r : Review) : Bool :=
  1 ≤ r.rating && r.rating ≤ 5 &&
  10 ≤ r.comment.length &&
  (r.rtype == "client-to-freelancer" || r.rtype == "freelancer-to-client") &&
  optScoreValid r.communication && optScoreValid r.qualityOfWork &&
  optScoreValid r.valueForMoney && optScoreValid r.expertise &&
  optScoreValid r.professionalism

/-- The (job, reviewer, recipient) triple of a review matches the given
ids — the key of the unique compound index of src/models/Review.js:160. -/
def matchesTriple (j rvr rcp : Nat) (r : Review) : Bool :=
  r.job == j && r.reviewer == rvr && r.recipient == rcp

/-- Review.create: mongoose validates the document, then Mongo inserts it,
enforcing the unique index on (job, reviewer, recipient): an insert whose
triple is already present fails with a duplicate-key error (code 11000)
whose keyPattern names the index fields. -/
def dbCreate (store : List Review) (r : Review) : Except DbErr (List Review) :=
  if reviewValid r = false then
    .error { code := none, keyPattern := [], message := "Review validation failed" }
  else if store.any (matchesTriple r.job r.reviewer r.recipient) then
    .error { code := some 11000, keyPattern := ["job", "reviewer", "recipient"],
             message := "E11000 duplicate key error" }
  else
    .ok (store ++ [r])

/-- document.save(): mongoose re-validates the whole document and the store
replaces the row with the same id. -/
def replaceById (store : List Review) (rid : Nat) (r2 : Review) : List Review :=
  store.map (fun r => if r.rid == rid then r2 else r)

/-- Review.findById. -/
def findById (store : List Review) (rid : Nat) : Option Review :=
  store.find? (fun r => r.rid == rid)

/-- Review.findByIdAndDelete. -/
def removeById (store : List Review) (rid : Nat) : List Review :=
  store.filter (fun r => r.rid != rid)

/-- JS `x || d` on an optional numeric field: undefined and 0 are falsy. -/
def jsOrNat (x : Option Nat) (d : Nat) : Nat :=
  match x with
  | none => d
  | some v => if v == 0 then d else v

/-- JS String.includes. -/
def strIncludes (s pat : String) : Bool :=
  2 ≤ (s.splitOn pat).length

/-- The request to createReview: the authenticated user (id and role, from
req.user) and the body fields of reviewController.js:18-29.  Absent body
fields are `none`. -/
structure CreateReq where
  userId : Nat
  role : String
  jobId : Nat
  recipient : Nat
  rating : Nat
  comment : String
  communication : Option Nat
  qualityOfWork : Option Nat
  valueForMoney : Option Nat
  expertise : Option Nat
  professionalism : Option Nat
  isPublic : Option Bool
deriving Repr, DecidableEq

/-- The document handed to Review.create at reviewController.js:85-98:
category scores default to the overall rating through `x || rating`, and
isPublic is true unless explicitly false. -/
def buildReview (req : CreateReq) (rtype : String) (freshId now : Nat) : Review :=
  { rid := freshId
    job := req.jobId
    reviewer := req.userId
    recipient := req.recipient
    rating := req.rating
    comment := req.comment
    isPublic := !(req.isPublic == some false)
    rtype := rtype
    communication := some (jsOrNat req.communication req.rating)
    qualityOfWork := some (jsOrNat req.qualityOfWork req.rating)
    valueForMoney := some (jsOrNat req.valueForMoney req.rating)
    expertise := some (jsOrNat req.expertise req.rating)
    professionalism := some (jsOrNat req.professionalism req.rating)
    helpfulVotes := []
    isReported := false
    reportReason := none
    reportedBy := none
    reportedAt := none
    isHidden := false
    moderationReason := none
    createdAt := now }

/-- The review type derived from the authenticated role at
reviewController.js:67 (never taken from the request body). -/
def derivedType (role : String) : String :=
  if role == "client" then "client-to-freelancer" else "freelancer-to-client"

/-- The duplicate-key handler of reviewController.js:103-116, applied to a
storage error whose code is 11000. -/
def dupKeyResp (e : DbErr) : Resp :=
  if e.keyPattern.contains "job" || e.keyPattern.contains "reviewer" ||
      e.keyPattern.contains "recipient" then
    apiErr 400 "You have already submitted a review for this job"
  else if strIncludes e.message "from_1_to_1_project_1" ||
      strIncludes e.message "from: null, to: null, project: null" then
    apiErr 500 "Database configuration issue. Please contact support. (Legacy index conflict)"
  else
    apiErr 400 "Duplicate review detected"

/-- createReview of src/controllers/reviewController.js:12-148.

`snapshot` is the store as read by the advisory existence check at line 72
and `store` the store at insert time; a sequential call passes the same
list for both, and a submission racing with a concurrent one may see a
`snapshot` that does not yet hold what `store` holds.  `notifyOk` models
whether the Notification.create dispatch at line 129 (awaited inside the
same try block) succeeds; when it throws, the outer catch at line 144
returns a 500 error response even though the review was already inserted.
`freshId` is the object id Mongo assigns to the inserted document and
`now` its createdAt timestamp. -/
def createReview (env : Env) (snapshot store : List Review) (notifyOk : Bool)
    (freshId now : Nat) (req : CreateReq) : Resp × List Review :=
  match env.jobs.lookup req.jobId with
  | none => (apiErr 404 "Job not found", store)
  | some job =>
    match env.users.lookup req.recipient with
    | none => (apiErr 404 "Recipient user not found", store)
    | some _ =>
      if job.status ≠ "completed" then
        (apiErr 400 "You can only review completed jobs", store)
      else if job.client = none ∨ job.hiredFreelancer = none then
        (apiErr 400 "Job must have both a client and hired freelancer to submit reviews", store)
      else
        let isClient := req.role == "client"
        let isFreelancer := req.role == "freelancer"
        if !isClient && !isFreelancer then
          (apiErr 403 "You must be either the client or the hired freelancer to submit a review", store)
        else
          let reviewType := derivedType req.role
          if snapshot.any (matchesTriple req.jobId req.userId req.recipient) then
            (apiErr 400 "You have already submitted a review for this job", store)
          else
            match dbCreate store (buildReview req reviewType freshId now) with
            | .error e =>
              if e.code == some 11000 then
                (dupKeyResp e, store)
              else
                (apiErr 500 e.message, store)
            | .ok store2 =>
              if notifyOk then
                (apiOk 201 "Review submitted successfully", store2)
              else
                (apiErr 500 "Notification creation failed", store2)

/-! Concrete fixtures used by witnesses and counterexamples. -/

/-- A completed job with client 10 and hired freelancer 20. -/
def jobDone : Job :=
  { status := "completed", client := some 10, hiredFreelancer := some 20, title := "Site build" }

/-- A job still in progress. -/
def jobOpen : Job :=
  { status := "in-progress", client := some 10, hiredFreelancer := some 20, title := "Site build" }

/-- A completed job with no hired freelancer. -/
def jobNoHire : Job :=
  { status := "completed", client := some 10, hiredFreelancer := none, title := "Site build" }

/-- Collections for the nominal scenario: job 1 completed, client 10,
freelancer 20. -/
def envDemo : Env :=
  { jobs := [(1, jobDone)], users := [(10, { role := "client" }), (20, { role := "freelancer" })] }

/-- Empty collections. -/
def envEmpty : Env := { jobs := [], users := [] }

/-- Job present, recipient user missing. -/
def envNoUser : Env := { jobs := [(1, jobDone)], users := [] }

/-- Job not completed. -/
def envOpenJob : Env :=
  { jobs := [(1, jobOpen)], users := [(10, { role := "client" }), (20, { role := "freelancer" })] }

/-- Completed job missing its hired freelancer. -/
def envNoHire : Env :=
  { jobs := [(1, jobNoHire)], users := [(10, { role := "client" }), (20, { role := "freelancer" })] }

/-- The nominal submission: client 10 reviews freelancer 20 on job 1 with
rating 5 and no category scores supplied. -/
def reqDemo : CreateReq :=
  { userId := 10, role := "client", jobId := 1, recipient := 20, rating := 5,
    comment := "Great work, thanks a lot!", communication := none, qualityOfWork := none,
    valueForMoney := none, expertise := none, professionalism := none, isPublic := none }

/-- The same submission issued by a user whose role is admin. -/
def reqAdminRole : CreateReq := { reqDemo with role := "admin" }

/-- A second submission for the same (job, reviewer, recipient) triple with
a different payload. -/
def reqSecond : CreateReq :=
  { reqDemo with rating := 4, comment := "Second attempt at a review." }

/-! Inversion of a successful createReview call. -/

/-- Every branch of the duplicate-key handler produces an error response. -/
theorem dupKeyResp_success (e : DbErr) : (dupKeyResp e).success = false := by
  unfold dupKeyResp
  split
  · rfl
  · split <;> rfl

/-- A successful createReview implies: the notification dispatch succeeded,
the job exists, is completed and fully staffed, the recipient exists, the
role is client or freelancer, neither the snapshot nor the store held the
triple, the built document is schema-valid, and the final store is the old
store with the built document appended. -/
theorem createReview_success_inv (env : Env) (snapshot store : List Review) (nOk : Bool)
    (fid now : Nat) (req : CreateReq)
    (h : (createReview env snapshot store nOk fid now req).1.success = true) :
    nOk = true ∧
    (∃ job, env.jobs.lookup req.jobId = some job ∧ job.status = "completed" ∧
      job.client ≠ none ∧ job.hiredFreelancer ≠ none) ∧
    (env.users.lookup req.recipient).isSome = true ∧
    (req.role = "client" ∨ req.role = "freelancer") ∧
    snapshot.any (matchesTriple req.jobId req.userId req.recipient) = false ∧
    store.any (matchesTriple req.jobId req.userId req.recipient) = false ∧
    reviewValid (buildReview req (derivedType req.role) fid now) = true ∧
    (createReview env snapshot store nOk fid now req).2
      = store ++ [buildReview req (derivedType req.role) fid now] := by
  revert h
  unfold createReview
  split
  case h_1 heqj => intro h; exact absurd h (by simp [apiErr])
  case h_2 job heqj =>
  split
  case h_1 hequ => intro h; exact absurd h (by simp [apiErr])
  case h_2 u hequ =>
  dsimp only
  split
  case isTrue hs => intro h; exact absurd h (by simp [apiErr])
  case isFalse hs =>
  split
  case isTrue hcf => intro h; exact absurd h (by simp [apiErr])
  case isFalse hcf =>
  split
  case isTrue hrole => intro h; exact absurd h (by simp [apiErr])
  case isFalse hrole =>
  split
  case isTrue hsnap => intro h; exact absurd h (by simp [apiErr])
  case isFalse hsnap =>
  split
  case h_1 e heqd =>
    intro h
    split at h
    · exact absurd h (by simp [dupKeyResp_success])
    · exact absurd h (by simp [apiErr])
  case h_2 store2 heqd =>
  split
  case isFalse hn => intro h; exact absurd h (by simp [apiErr])
  case isTrue hn =>
  intro _
  have hrole2 : req.role = "client" ∨ req.role = "freelancer" := by
    by_cases hc : req.role = "client"
    · exact Or.inl hc
    · refine Or.inr ?_
      by_contra hf
      exact hrole (by simp [hc, hf])
  have hdb := heqd
  unfold dbCreate at hdb
  split at hdb
  · exact absurd hdb (by simp)
  case isFalse hv =>
  split at hdb
  · exact absurd hdb (by simp)
  case isFalse hdup =>
  refine ⟨hn, ⟨job, heqj, not_not.mp hs, ?_, ?_⟩, by simp [hequ], hrole2,
    by simpa using hsnap, by simpa using hdup, by simpa using hv, ?_⟩
  · intro hc; exact hcf (Or.inl hc)
  · intro hc; exact hcf (Or.inr hc)
  · simpa using hdb.symm

/-- Claim C3: submitReview performs its validations in a fixed fail-fast
order where the first failing check determines the error: (1) job missing
fails with NotFound (404); (2) else recipient user missing fails with
NotFound (404); (3) else job status other than completed fails with
InvalidState (400), regardless of the role; (4) else a job missing a
client or a hired freelancer fails with InvalidState (400); (5) else an
acting-user role other than client or freelancer fails with
Forbidden (403); only then do the duplicate check and payload validations
run (reviewController.js:34-64). -/
theorem c3_submitReview_validation_order (env : Env) (snapshot store : List Review)
    (nOk : Bool) (fid now : Nat) (req : CreateReq) :
    (env.jobs.lookup req.jobId = none →
      createReview env snapshot store nOk fid now req = (apiErr 404 "Job not found", store)) ∧
    (∀ job, env.jobs.lookup req.jobId = some job →
      env.users.lookup req.recipient = none →
      createReview env snapshot store nOk fid now req
        = (apiErr 404 "Recipient user not found", store)) ∧
    (∀ job u, env.jobs.lookup req.jobId = some job →
      env.users.lookup req.recipient = some u →
      job.status ≠ "completed" →
      createReview env snapshot store nOk fid now req
        = (apiErr 400 "You can only review completed jobs", store)) ∧
    (∀ job u, env.jobs.lookup req.jobId = some job →
      env.users.lookup req.recipient = some u →
      job.status = "completed" →
      (job.client = none ∨ job.hiredFreelancer = none) →
      createReview env snapshot store nOk fid now req
        = (apiErr 400 "Job must have both a client and hired freelancer to submit reviews", store)) ∧
    (∀ job u, env.jobs.lookup req.jobId = some job →
      env.users.lookup req.recipient = some u →
      job.status = "completed" →
      job.client ≠ none → job.hiredFreelancer ≠ none →
      req.role ≠ "client" → req.role ≠ "freelancer" →
      createReview env snapshot store nOk fid now req
        = (apiErr 403 "You must be either the client or the hired freelancer to submit a review", store)) := by
  refine ⟨?_, ?_, ?_, ?_, ?_⟩
  · intro hj
    simp [createReview, hj]
  · intro job hj hu
    simp [createReview, hj, hu]
  · intro job u hj hu hs
    simp [createReview, hj, hu, hs]
  · intro job u hj hu hs hcf
    simp [createReview, hj, hu, hs, hcf]
  · intro job u hj hu hs hcn hfn hrc hrf
    simp [createReview, hj, hu, hs, hcn, hfn, hrc, hrf]

/-- Witness for C3: each of the five validation failures observed on a
concrete environment. -/
theorem c3_submitReview_validation_order_witness :
    createReview envEmpty [] [] true 0 0 reqDemo = (apiErr 404 "Job not found", []) ∧
    createReview envNoUser [] [] true 0 0 reqDemo = (apiErr 404 "Recipient user not found", []) ∧
    createReview envOpenJob [] [] true 0 0 reqDemo
      = (apiErr 400 "You can only review completed jobs", []) ∧
    createReview envNoHire [] [] true 0 0 reqDemo
      = (apiErr 400 "Job must have both a client and hired freelancer to submit reviews", []) ∧
    createReview envDemo [] [] true 0 0 reqAdminRole
      = (apiErr 403 "You must be either the client or the hired freelancer to submit a review", []) := by
  refine ⟨(c3_submitReview_validation_order envEmpty [] [] true 0 0 reqDemo).1 rfl,
    (c3_submitReview_validation_order envNoUser [] [] true 0 0 reqDemo).2.1 jobDone rfl rfl,
    (c3_submitReview_validation_order envOpenJob [] [] true 0 0 reqDemo).2.2.1
      jobOpen { role := "freelancer" } rfl rfl (by decide),
    (c3_submitReview_validation_order envNoHire [] [] true 0 0 reqDemo).2.2.2.1
      jobNoHire { role := "freelancer" } rfl rfl rfl (by decide),
    (c3_submitReview_validation_order envDemo [] [] true 0 0 reqAdminRole).2.2.2.2
      jobDone { role := "freelancer" } rfl rfl rfl (by decide) (by decide) (by decide) (by decide)⟩

/-- When the store already holds the (job, reviewer, recipient) triple and
the submission passes the request validations, createReview answers the
Conflict error and leaves the store unchanged, whichever of the two guards
catches the duplicate: the advisory pre-insert check when the snapshot
already shows the triple, or the translation of the storage duplicate-key
error when it does not (reviewController.js:72-121). -/
theorem createReview_dup (env : Env) (snapshot store : List Review) (nOk : Bool)
    (fid now : Nat) (req : CreateReq) (job : Job)
    (hj : env.jobs.lookup req.jobId = some job)
    (hu : (env.users.lookup req.recipient).isSome = true)
    (hs : job.status = "completed")
    (hcn : job.client ≠ none) (hfn : job.hiredFreelancer ≠ none)
    (hrole : req.role = "client" ∨ req.role = "freelancer")
    (hvalid : reviewValid (buildReview req (derivedType req.role) fid now) = true)
    (hdup : store.any (matchesTriple req.jobId req.userId req.recipient) = true) :
    createReview env snapshot store nOk fid now req
      = (apiErr 400 "You have already submitted a review for this job", store) := by
  obtain ⟨u, hu2⟩ := Option.isSome_iff_exists.mp hu
  have hroleb : (!(req.role == "client") && !(req.role == "freelancer")) = false := by
    rcases hrole with h1 | h1 <;> simp [h1]
  unfold createReview
  rw [hj, hu2]
  by_cases hsnap : snapshot.any (matchesTriple req.jobId req.userId req.recipient) = true
  · simp [hs, hcn, hfn, hroleb, hsnap]
  · simp only [Bool.not_eq_true] at hsnap
    simp [hs, hcn, hfn, hroleb, hsnap, dbCreate, buildReview, hdup, dupKeyResp,
      reviewValid] at hvalid ⊢
    simp [hvalid]

/-- Claim C1: after one successful submitReview for a (job, reviewer,
recipient) triple, a second submitReview for the same triple — same job,
same authenticated reviewer (hence the same role) and same recipient, with
any schema-valid payload — fails with the Conflict error (400, already
reviewed) and leaves exactly one Review stored for the triple; this holds
for every snapshot the advisory pre-insert check of the second call may
have read, so it covers both the advisory-check path and the path that
translates the unique-index duplicate-key violation into the same
Conflict error. -/
theorem c1_second_submission_conflict (env : Env) (s snap2 : List Review)
    (nOk1 nOk2 : Bool) (fid1 now1 fid2 now2 : Nat) (req req2 : CreateReq)
    (hfirst : (createReview env s s nOk1 fid1 now1 req).1.success = true)
    (hjob : req2.jobId = req.jobId) (hrev : req2.userId = req.userId)
    (hrcp : req2.recipient = req.recipient) (hrole : req2.role = req.role)
    (hvalid2 : reviewValid (buildReview req2 (derivedType req2.role) fid2 now2) = true) :
    createReview env snap2 (createReview env s s nOk1 fid1 now1 req).2 nOk2 fid2 now2 req2
      = (apiErr 400 "You have already submitted a review for this job",
         (createReview env s s nOk1 fid1 now1 req).2) ∧
    ((createReview env s s nOk1 fid1 now1 req).2.filter
        (fun r => matchesTriple req.jobId req.userId req.recipient r)).length = 1 := by
  obtain ⟨hn, ⟨job, hj, hs, hcn, hfn⟩, hu, hrole1, hsnap, hdup, hv, hstore⟩ :=
    createReview_success_inv env s s nOk1 fid1 now1 req hfirst
  have hmatch : matchesTriple req2.jobId req2.userId req2.recipient
      (buildReview req (derivedType req.role) fid1 now1) = true := by
    simp [matchesTriple, buildReview, hjob, hrev, hrcp]
  have hdup2 : ((createReview env s s nOk1 fid1 now1 req).2).any
      (matchesTriple req2.jobId req2.userId req2.recipient) = true := by
    rw [hstore, List.any_append]
    simp [hmatch]
  constructor
  · exact createReview_dup env snap2 (createReview env s s nOk1 fid1 now1 req).2 nOk2
      fid2 now2 req2 job (hjob ▸ hj) (hrcp ▸ hu) hs hcn hfn
      (hrole ▸ hrole1) hvalid2 hdup2
  · rw [hstore, List.filter_append]
    have hnil : s.filter (fun r => matchesTriple req.jobId req.userId req.recipient r) = [] := by
      rw [List.filter_eq_nil_iff]
      intro a ha
      have := List.any_eq_false.mp (by simpa using hsnap)
      simpa using this a ha
    rw [hnil]
    simp [matchesTriple, buildReview]

/-- Witness for C1: client 10 successfully reviews freelancer 20 on job 1;
a second submission for the same triple, with an empty snapshot (the racy
path that is stopped by the unique-index translation, not by the advisory
check), gets the Conflict error and the store keeps exactly one review for
the triple. -/
theorem c1_second_submission_conflict_witness :
    createReview envDemo [] (createReview envDemo [] [] true 100 0 reqDemo).2 true 101 1 reqSecond
      = (apiErr 400 "You have already submitted a review for this job",
         (createReview envDemo [] [] true 100 0 reqDemo).2) ∧
    ((createReview envDemo [] [] true 100 0 reqDemo).2.filter
        (fun r => matchesTriple reqDemo.jobId reqDemo.userId reqDemo.recipient r)).length = 1 :=
  c1_second_submission_conflict envDemo [] [] true true 100 0 101 1 reqDemo reqSecond
    (by decide) rfl rfl rfl rfl (by decide)

/-- Claim C4: every successful submitReview appends a review whose five
category scores (communication, qualityOfWork, valueForMoney, expertise,
professionalism) are all populated, and any category omitted from the
payload is stored equal to the submitted overall rating value
(reviewController.js:85-98). -/
theorem c4_category_defaults (env : Env) (snapshot store : List Review) (nOk : Bool)
    (fid now : Nat) (req : CreateReq)
    (h : (createReview env snapshot store nOk fid now req).1.success = true) :
    ∃ r, (createReview env snapshot store nOk fid now req).2 = store ++ [r] ∧
      r.communication.isSome = true ∧ r.qualityOfWork.isSome = true ∧
      r.valueForMoney.isSome = true ∧ r.expertise.isSome = true ∧
      r.professionalism.isSome = true ∧
      (req.communication = none → r.communication = some req.rating) ∧
      (req.qualityOfWork = none → r.qualityOfWork = some req.rating) ∧
      (req.valueForMoney = none → r.valueForMoney = some req.rating) ∧
      (req.expertise = none → r.expertise = some req.rating) ∧
      (req.professionalism = none → r.professionalism = some req.rating) := by
  obtain ⟨-, -, -, -, -, -, -, hstore⟩ :=
    createReview_success_inv env snapshot store nOk fid now req h
  refine ⟨buildReview req (derivedType req.role) fid now, hstore,
    by simp [buildReview], by simp [buildReview], by simp [buildReview],
    by simp [buildReview], by simp [buildReview], ?_, ?_, ?_, ?_, ?_⟩ <;>
    (intro hnone; simp [buildReview, jsOrNat, hnone])

/-- Witness for C4: the nominal submission omits all five category scores
and every stored category equals the submitted rating 5. -/
theorem c4_category_defaults_witness :
    ∃ r, (createReview envDemo [] [] true 100 0 reqDemo).2 = [] ++ [r] ∧
      r.communication.isSome = true ∧ r.qualityOfWork.isSome = true ∧
      r.valueForMoney.isSome = true ∧ r.expertise.isSome = true ∧
      r.professionalism.isSome = true ∧
      (reqDemo.communication = none → r.communication = some reqDemo.rating) ∧
      (reqDemo.qualityOfWork = none → r.qualityOfWork = some reqDemo.rating) ∧
      (reqDemo.valueForMoney = none → r.valueForMoney = some reqDemo.rating) ∧
      (reqDemo.expertise = none → r.expertise = some reqDemo.rating) ∧
      (reqDemo.professionalism = none → r.professionalism = some reqDemo.rating) :=
  c4_category_defaults envDemo [] [] true 100 0 reqDemo (by decide)

/-- Claim C5 (code bug): the Notification.create dispatch at
reviewController.js:129 is awaited inside the same try block as the
insert, with no local catch; when the dispatch fails, the catch-all at
line 144 returns a 500 error response to the caller even though the
review was already persisted.  So a notification failure IS propagated as
a failure of the review-creation operation, contradicting the claim.  At
the failing input below, the identical submission succeeds when the
notification sink works and returns an error response when it throws,
while in both cases exactly one review for the triple is stored. -/
theorem c5_notification_failure_propagates :
    (createReview envDemo [] [] true 100 0 reqDemo).1.success = true ∧
    (createReview envDemo [] [] false 100 0 reqDemo).1.success = false ∧
    (createReview envDemo [] [] false 100 0 reqDemo).1.status = 500 ∧
    ((createReview envDemo [] [] false 100 0 reqDemo).2.filter
        (fun r => matchesTriple reqDemo.jobId reqDemo.userId reqDemo.recipient r)).length = 1 := by
  decide

/-! The getReviewStats aggregation of src/models/Review.js:191-284. -/

/-- JS Math.round on a nonnegative value: round half toward positive
infinity, the floor of x + 1/2. -/
def jsRound (q : ℚ) : ℤ := ⌊q + 1/2⌋

/-- Math.round(x * 10) / 10, the one-decimal rounding used by
getReviewStats on every average it returns. -/
def round1 (q : ℚ) : ℚ := (jsRound (q * 10) : ℚ) / 10

/-- Rounding to one decimal place with round-half-up semantics, stated the
way the spec words it; compared against the rounding of the source. -/
def roundHalfUpTenth (q : ℚ) : ℚ := ((⌊q * 10 + 1 / 2⌋ : ℤ) : ℚ) / 10

/-- Mongo $avg over an optional field: documents missing the field are
skipped, and a group where every document misses it yields null. -/
def mongoAvg (xs : List Nat) : Option ℚ :=
  if xs.length = 0 then none
  else some ((xs.map (fun v => (v : ℚ))).sum / (xs.length : ℚ))

/-- The result shape of Review.getReviewStats: overall average, count,
category averages and the five distribution buckets. -/
structure ReviewStats where
  averageRating : ℚ
  totalReviews : Nat
  communication : ℚ
  qualityOfWork : ℚ
  valueForMoney : ℚ
  expertise : ℚ
  professionalism : ℚ
  fiveStar : Nat
  fourStar : Nat
  threeStar : Nat
  twoStar : Nat
  oneStar : Nat
deriving Repr, DecidableEq

/-- Review.getReviewStats (src/models/Review.js:191-284): match the
recipient, group with $avg over rating and the five category fields and
with $cond sums for the five star buckets, then round each average with
Math.round(x * 10) / 10; the `|| 0` guard replaces a null category
average by 0; an empty aggregation result yields the all-zero record. -/
def getReviewStats (store : List Review) (userId : Nat) : ReviewStats :=
  let rs := store.filter (fun r => r.recipient == userId)
  if rs.isEmpty then
    { averageRating := 0, totalReviews := 0, communication := 0, qualityOfWork := 0,
      valueForMoney := 0, expertise := 0, professionalism := 0,
      fiveStar := 0, fourStar := 0, threeStar := 0, twoStar := 0, oneStar := 0 }
  else
    { averageRating := round1 (((rs.map (fun r => (r.rating : ℚ))).sum) / (rs.length : ℚ))
      totalReviews := rs.length
      communication := round1 ((mongoAvg (rs.filterMap Review.communication)).getD 0)
      qualityOfWork := round1 ((mongoAvg (rs.filterMap Review.qualityOfWork)).getD 0)
      valueForMoney := round1 ((mongoAvg (rs.filterMap Review.valueForMoney)).getD 0)
      expertise := round1 ((mongoAvg (rs.filterMap Review.expertise)).getD 0)
      professionalism := round1 ((mongoAvg (rs.filterMap Review.professionalism)).getD 0)
      fiveStar := (rs.filter (fun r => r.rating == 5)).length
      fourStar := (rs.filter (fun r => r.rating == 4)).length
      threeStar := (rs.filter (fun r => r.rating == 3)).length
      twoStar := (rs.filter (fun r => r.rating == 2)).length
      oneStar := (rs.filter (fun r => r.rating == 1)).length }

/-- A stored review for recipient 7 with the given id and rating, all
category scores equal to the rating. -/
def statReview (i rating : Nat) : Review :=
  { rid := i, job := i, reviewer := 30 + i, recipient := 7, rating := rating,
    comment := "Solid collaboration overall.", isPublic := true,
    rtype := "client-to-freelancer",
    communication := some rating, qualityOfWork := some rating,
    valueForMoney := some rating, expertise := some rating,
    professionalism := some rating,
    helpfulVotes := [], isReported := false, reportReason := none, reportedBy := none,
    reportedAt := none, isHidden := false, moderationReason := none, createdAt := i }

/-- Five stored reviews for recipient 7 with ratings [5, 5, 4, 3, 5]. -/
def statsStore : List Review :=
  [statReview 1 5, statReview 2 5, statReview 3 4, statReview 4 3, statReview 5 5]

/-- Claim C2: on the ratings [5,5,4,3,5] getStatsForUser returns average
4.4, 5 total reviews and distribution 5 to 3, 4 to 1, 3 to 1, 2 to 0,
1 to 0; a recipient with zero reviews gets the all-zero record rather than
an error; and in general every average returned — overall and
per-category — is the exact mean rounded to one decimal place with
round-half-up semantics. -/
theorem c2_stats :
    ((getReviewStats statsStore 7).averageRating = 4.4 ∧
     (getReviewStats statsStore 7).totalReviews = 5 ∧
     (getReviewStats statsStore 7).fiveStar = 3 ∧
     (getReviewStats statsStore 7).fourStar = 1 ∧
     (getReviewStats statsStore 7).threeStar = 1 ∧
     (getReviewStats statsStore 7).twoStar = 0 ∧
     (getReviewStats statsStore 7).oneStar = 0) ∧
    (∀ (store : List Review) (u : Nat),
      store.filter (fun r => r.recipient == u) = [] →
      getReviewStats store u =
        { averageRating := 0, totalReviews := 0, communication := 0, qualityOfWork := 0,
          valueForMoney := 0, expertise := 0, professionalism := 0,
          fiveStar := 0, fourStar := 0, threeStar := 0, twoStar := 0, oneStar := 0 }) ∧
    (∀ (store : List Review) (u : Nat),
      store.filter (fun r => r.recipient == u) ≠ [] →
      (getReviewStats store u).averageRating
        = roundHalfUpTenth
            ((((store.filter (fun r => r.recipient == u)).map (fun r => (r.rating : ℚ))).sum)
              / (((store.filter (fun r => r.recipient == u)).length : ℚ))) ∧
      (getReviewStats store u).communication
        = roundHalfUpTenth
            ((mongoAvg ((store.filter (fun r => r.recipient == u)).filterMap
              Review.communication)).getD 0) ∧
      (getReviewStats store u).qualityOfWork
        = roundHalfUpTenth
            ((mongoAvg ((store.filter (fun r => r.recipient == u)).filterMap
              Review.qualityOfWork)).getD 0) ∧
      (getReviewStats store u).valueForMoney
        = roundHalfUpTenth
            ((mongoAvg ((store.filter (fun r => r.recipient == u)).filterMap
              Review.valueForMoney)).getD 0) ∧
      (getReviewStats store u).expertise
        = roundHalfUpTenth
            ((mongoAvg ((store.filter (fun r => r.recipient == u)).filterMap
              Review.expertise)).getD 0) ∧
      (getReviewStats store u).professionalism
        = roundHalfUpTenth
            ((mongoAvg ((store.filter (fun r => r.recipient == u)).filterMap
              Review.professionalism)).getD 0)) := by
  refine ⟨?_, ?_, ?_⟩
  · have hfilter : statsStore.filter (fun r => r.recipient == 7) = statsStore := by decide
    simp only [getReviewStats, hfilter]
    norm_num [statsStore, statReview, round1, jsRound, mongoAvg]
  · intro store u hnil
    simp [getReviewStats, hnil]
  · intro store u hne
    have hie : (store.filter (fun r => r.recipient == u)).isEmpty = false := by
      simpa [List.isEmpty_iff] using hne
    unfold getReviewStats
    rw [if_neg (by simp [hie])]
    exact ⟨rfl, rfl, rfl, rfl, rfl, rfl⟩

/-- Witness for C2: the zero-review case at a recipient with no stored
reviews, and the rounding characterisation at the concrete five-review
store. -/
theorem c2_stats_witness :
    (getReviewStats statsStore 99 =
      { averageRating := 0, totalReviews := 0, communication := 0, qualityOfWork := 0,
        valueForMoney := 0, expertise := 0, professionalism := 0,
        fiveStar := 0, fourStar := 0, threeStar := 0, twoStar := 0, oneStar := 0 }) ∧
    (getReviewStats statsStore 7).averageRating
      = roundHalfUpTenth
          ((((statsStore.filter (fun r => r.recipient == 7)).map (fun r => (r.rating : ℚ))).sum)
            / (((statsStore.filter (fun r => r.recipient == 7)).length : ℚ))) :=
  ⟨c2_stats.2.1 statsStore 99 (by decide),
   (c2_stats.2.2 statsStore 7 (by decide)).1⟩

/-! handleReportedReview of src/controllers/adminController.js:777-883 and
the reportReview flow of src/controllers/reviewController.js:367-416. -/

/-- JS truthiness of an optional string: undefined and the empty string
are falsy. -/
def optStrTruthy (x : Option String) : Bool :=
  match x with
  | none => false
  | some s => s != ""

/-- reportReview (reviewController.js:367-416): a reason is required, the
review must exist, and only its recipient may report it; on success the
top-level isReported, reportReason, reportedBy and reportedAt fields are
set and the document saved. -/
def reportReview (store : List Review) (userId : Nat) (reviewId : Nat)
    (reason : Option String) (now : Nat) : Resp × List Review :=
  if !(optStrTruthy reason) then
    (apiErr 400 "Report reason is required", store)
  else
    match findById store reviewId with
    | none => (apiErr 404 "Review not found", store)
    | some review =>
      if review.recipient != userId then
        (apiErr 403 "You can only report reviews about yourself", store)
      else
        let r2 := { review with
                    isReported := true
                    reportReason := reason
                    reportedBy := some userId
                    reportedAt := some now }
        if reviewValid r2 = false then
          (apiErr 500 "Review validation failed", store)
        else
          (apiOk 200 "Review reported successfully. Our team will review it shortly.",
           replaceById store reviewId r2)

/-- The shape of the `reported` subdocument that handleReportedReview
expects (adminController.js:792-871): an isReported flag, the reporter
reference and admin notes. -/
structure ReportedSub where
  isReported : Bool
  reportedBy : Option Nat
  adminNotes : Option String
deriving Repr, DecidableEq

/-- The value handleReportedReview reads at the document path `reported`
(adminController.js:792).  reviewSchema in src/models/Review.js declares
no path named `reported` — the report state written by reportReview lives
in the top-level fields isReported, reportReason, reportedBy, reportedAt —
and a mongoose document yields undefined for a path absent from its
schema, so this read is undefined (none) for every review, including
reviews whose top-level isReported flag is set. -/
def reportedPathOf (_ : Review) : Option ReportedSub := none

/-- handleReportedReview (adminController.js:777-883): validate the action
against the set approve/reject/delete, look the review up, then require
review.reported && review.reported.isReported before moderating.  The
delete / approve / reject branches were written against a legacy document
shape (a `reported` subdocument plus `from`/`to` references); with the
Review model of this repository the `reported` path is undefined, so the
guard at line 795 always answers the 400 error and the three moderation
branches are unreachable. -/
def handleReportedReview (store : List Review) (reviewId : Nat) (action : String) :
    Resp × List Review :=
  if !(["approve", "reject", "delete"].contains action) then
    (apiErr 400 "Invalid action. Must be approve, reject, or delete.", store)
  else
    match findById store reviewId with
    | none => (apiErr 404 "Review not found", store)
    | some review =>
      match reportedPathOf review with
      | none => (apiErr 400 "This review has not been reported", store)
      | some rep =>
        if !rep.isReported then
          (apiErr 400 "This review has not been reported", store)
        else if action == "delete" then
          (apiOk 200 "Reported review has been deleted", removeById store reviewId)
        else if action == "approve" then
          (apiOk 200 "Review report has been approved (rejected)", store)
        else
          (apiOk 200 "Review has been hidden and report resolved",
           replaceById store reviewId { review with isPublic := false })

/-- handleReportedReview never changes the review store: every call is
stopped by the action check, the lookup, or the has-not-been-reported
guard, which always fires because the `reported` path is undefined. -/
theorem handleReportedReview_preserves (store : List Review) (reviewId : Nat)
    (action : String) : (handleReportedReview store reviewId action).2 = store := by
  unfold handleReportedReview
  split
  · rfl
  · split
    · rfl
    · rfl

/-- The review statReview 1 5 after its recipient 7 reported it for
harassment at time 9 (the state produced by the reportReview flow). -/
def reportedDemo : Review :=
  { statReview 1 5 with
    isReported := true
    reportReason := some "harassment"
    reportedBy := some 7
    reportedAt := some 9 }

/-- Claim C6 (code bug): handleReportedReview guards on
review.reported.isReported, a path the Review schema does not define, so
the guard rejects every review — even one actually reported through
reportReview, whose flag is the top-level isReported field — and no
moderation action is ever performed.  In particular the delete action
never removes the row: here a review reported through the real report
flow still answers 400 "This review has not been reported" to delete, and
the review remains stored and retrievable, while the claim (and the spec)
require delete to remove the row and the other actions to update it. -/
theorem c6_delete_action_never_deletes :
    (∀ (store : List Review) (reviewId : Nat) (action : String),
      (handleReportedReview store reviewId action).2 = store) ∧
    ((reportReview [statReview 1 5] 7 1 (some "harassment") 9).1.success = true ∧
     ∃ r, findById (reportReview [statReview 1 5] 7 1 (some "harassment") 9).2 1 = some r ∧
       r.isReported = true ∧
       handleReportedReview (reportReview [statReview 1 5] 7 1 (some "harassment") 9).2 1 "delete"
         = (apiErr 400 "This review has not been reported",
            (reportReview [statReview 1 5] 7 1 (some "harassment") 9).2)) := by
  refine ⟨fun store reviewId action => handleReportedReview_preserves store reviewId action, ?_⟩
  exact ⟨by decide, reportedDemo, by decide, by decide, by decide⟩

/-- Counterexample to claim C7: for an existing review that carries no
active report, the approve action fails with status 400 and the message
"This review has not been reported" — not with the 404 NotFound status
that the same controller uses for an absent review. -/
theorem c7_no_report_error_is_400_not_404 :
    (handleReportedReview [statReview 1 5] 1 "approve").1
      = apiErr 400 "This review has not been reported" ∧
    (handleReportedReview [statReview 1 5] 1 "approve").1.status ≠ 404 := by
  decide

/-- Claim C7 as amended: moderateReportedReview fails with the 400
InvalidArgument error for every action outside approve/reject/delete, and
for an action inside the set with an existing review that carries no
active report it fails with the 400 error "This review has not been
reported" (an invalid-state response, not the 404 NotFound the claim
states); in both failure cases the review store is left unchanged. -/
theorem c7_moderation_failures (store : List Review) (reviewId : Nat) (action : String) :
    ((["approve", "reject", "delete"].contains action) = false →
      handleReportedReview store reviewId action
        = (apiErr 400 "Invalid action. Must be approve, reject, or delete.", store)) ∧
    ((["approve", "reject", "delete"].contains action) = true →
      ∀ r, findById store reviewId = some r → r.isReported = false →
        handleReportedReview store reviewId action
          = (apiErr 400 "This review has not been reported", store)) := by
  constructor
  · intro h
    unfold handleReportedReview
    rw [h]
    rfl
  · intro h r hr _
    unfold handleReportedReview
    rw [h, hr]
    rfl

/-- Witness for the amended C7: a nonsense action on an existing review,
and the approve action on an existing unreported review. -/
theorem c7_moderation_failures_witness :
    handleReportedReview [statReview 1 5] 1 "purge"
      = (apiErr 400 "Invalid action. Must be approve, reject, or delete.", [statReview 1 5]) ∧
    handleReportedReview [statReview 1 5] 1 "reject"
      = (apiErr 400 "This review has not been reported", [statReview 1 5]) :=
  ⟨(c7_moderation_failures [statReview 1 5] 1 "purge").1 (by decide),
   (c7_moderation_failures [statReview 1 5] 1 "reject").2 (by decide)
     (statReview 1 5) (by decide) (by decide)⟩

/-! markReviewAsHelpful of src/controllers/reviewController.js:423-462. -/

/-- markReviewAsHelpful: if the calling user already appears in the
helpfulVotes set, remove them; otherwise append them; save and answer the
new count.  The result is ((response, helpfulCount), store); the count is
none on the failure paths, which return no count. -/
def markReviewAsHelpful (store : List Review) (userId reviewId : Nat) :
    (Resp × Option Nat) × List Review :=
  match findById store reviewId with
  | none => ((apiErr 404 "Review not found", none), store)
  | some review =>
    if review.helpfulVotes.contains userId then
      let r2 := { review with helpfulVotes := review.helpfulVotes.filter (fun u => u != userId) }
      if reviewValid r2 = false then
        ((apiErr 500 "Review validation failed", none), store)
      else
        ((apiOk 200 "Removed helpful mark from review", some r2.helpfulVotes.length),
         replaceById store reviewId r2)
    else
      let r2 := { review with helpfulVotes := review.helpfulVotes ++ [userId] }
      if reviewValid r2 = false then
        ((apiErr 500 "Review validation failed", none), store)
      else
        ((apiOk 200 "Marked review as helpful", some r2.helpfulVotes.length),
         replaceById store reviewId r2)

/-- reviewValid inspects only schema-validated fields, so changing the
helpfulVotes list leaves it unchanged. -/
theorem reviewValid_votes (review : Review) (l : List Nat) :
    reviewValid { review with helpfulVotes := l } = reviewValid review := rfl

/-- A found review carries the id it was looked up by. -/
theorem findById_rid (store : List Review) (i : Nat) (r : Review)
    (h : findById store i = some r) : (r.rid == i) = true := by
  unfold findById at h
  simpa using List.find?_some h

/-- Replacing the row that findById finds makes findById answer the
replacement, provided the replacement keeps the id. -/
theorem findById_replaceById (store : List Review) (i : Nat) (r2 : Review)
    (hrid : (r2.rid == i) = true) :
    ∀ r, findById store i = some r → findById (replaceById store i r2) i = some r2 := by
  induction store with
  | nil => intro r hr; simp [findById] at hr
  | cons x xs ih =>
    intro r hr
    by_cases hx : (x.rid == i) = true
    · simp [findById, replaceById, List.find?, hx, hrid]
    · have hx2 : (x.rid == i) = false := by simpa using hx
      have hr2 : findById xs i = some r := by
        simpa [findById, List.find?, hx2] using hr
      have hxs := ih r hr2
      simpa [findById, replaceById, List.find?, hx2] using hxs

/-- Removing every occurrence of u keeps u out of the list. -/
theorem mem_filterNe (l : List Nat) (u v : Nat) :
    v ∈ l.filter (fun x => x != u) ↔ v ∈ l ∧ v ≠ u := by
  simp [List.mem_filter]

/-- Removing an absent element changes nothing. -/
theorem filterNe_eq_self (l : List Nat) (u : Nat) (h : u ∉ l) :
    l.filter (fun x => x != u) = l := by
  rw [List.filter_eq_self]
  intro a ha
  simp
  exact fun he => h (he ▸ ha)

/-- Removing every occurrence of u shortens the list by its count. -/
theorem filterNe_length (l : List Nat) (u : Nat) :
    (l.filter (fun x => x != u)).length = l.length - l.count u := by
  induction l with
  | nil => rfl
  | cons x xs ih =>
    have hle := List.count_le_length u xs
    by_cases hx : x = u
    · subst hx
      simp [List.count_cons, ih]
    · simp [hx, List.count_cons, ih]
      omega

/-- Claim C9: toggling the helpful vote of the same user twice in
sequence, with no interleaved operation, restores the helpful-vote set to
its original membership and returns the count to its original value; the
first call removes the user when present and adds them when absent, and
the second call reverses that change.  The hypotheses say the review
exists, is schema-valid (mongoose save re-validates on each toggle), and
holds the user at most once — vote lists are duplicate-free per user
because the toggle is the only operation that ever appends to them. -/
theorem c9_toggle_twice_restores (store : List Review) (userId reviewId : Nat)
    (review : Review)
    (hfind : findById store reviewId = some review)
    (hvalid : reviewValid review = true)
    (hdup : review.helpfulVotes.count userId ≤ 1) :
    (markReviewAsHelpful store userId reviewId).1.1.success = true ∧
    (∃ r1, findById (markReviewAsHelpful store userId reviewId).2 reviewId = some r1 ∧
      (userId ∈ review.helpfulVotes ↔ userId ∉ r1.helpfulVotes)) ∧
    (markReviewAsHelpful (markReviewAsHelpful store userId reviewId).2 userId
        reviewId).1.1.success = true ∧
    (markReviewAsHelpful (markReviewAsHelpful store userId reviewId).2 userId
        reviewId).1.2 = some review.helpfulVotes.length ∧
    ∃ r2, findById (markReviewAsHelpful (markReviewAsHelpful store userId reviewId).2
        userId reviewId).2 reviewId = some r2 ∧
      (∀ v : Nat, v ∈ r2.helpfulVotes ↔ v ∈ review.helpfulVotes) ∧
      r2.helpfulVotes.length = review.helpfulVotes.length := by
  have hrid := findById_rid store reviewId review hfind
  have hvne : ¬ (reviewValid review = false) := by simp [hvalid]
  by_cases hmem : review.helpfulVotes.contains userId = true
  · -- the user is present: the first call removes, the second adds back
    have hmem2 : userId ∈ review.helpfulVotes := by simpa using hmem
    have hcount1 : review.helpfulVotes.count userId = 1 := by
      have := List.count_pos_iff.mpr hmem2
      omega
    have hout1 : markReviewAsHelpful store userId reviewId
        = ((apiOk 200 "Removed helpful mark from review",
            some (review.helpfulVotes.filter (fun u => u != userId)).length),
           replaceById store reviewId
             { review with helpfulVotes := review.helpfulVotes.filter (fun u => u != userId) }) := by
      unfold markReviewAsHelpful
      rw [hfind]
      dsimp only
      rw [if_pos hmem, reviewValid_votes, if_neg hvne]
    have hst2 : (markReviewAsHelpful store userId reviewId).2
        = replaceById store reviewId
            { review with helpfulVotes := review.helpfulVotes.filter (fun u => u != userId) } := by
      rw [hout1]
    have hfind2 : findById (replaceById store reviewId
          { review with helpfulVotes := review.helpfulVotes.filter (fun u => u != userId) })
          reviewId
        = some { review with helpfulVotes := review.helpfulVotes.filter (fun u => u != userId) } :=
      findById_replaceById store reviewId _ hrid review hfind
    have hnotmem : ¬ ((review.helpfulVotes.filter (fun u => u != userId)).contains userId = true) := by
      simp [mem_filterNe]
    have hout2 : markReviewAsHelpful (replaceById store reviewId
          { review with helpfulVotes := review.helpfulVotes.filter (fun u => u != userId) })
          userId reviewId
        = ((apiOk 200 "Marked review as helpful",
            some ((review.helpfulVotes.filter (fun u => u != userId)) ++ [userId]).length),
           replaceById (replaceById store reviewId
             { review with helpfulVotes := review.helpfulVotes.filter (fun u => u != userId) })
             reviewId
             { review with helpfulVotes :=
                 (review.helpfulVotes.filter (fun u => u != userId)) ++ [userId] }) := by
      unfold markReviewAsHelpful
      rw [hfind2]
      dsimp only
      rw [if_neg hnotmem, reviewValid_votes, if_neg hvne]
    have hlen1 : (review.helpfulVotes.filter (fun u => u != userId)).length
        = review.helpfulVotes.length - 1 := by
      simpa [hcount1] using filterNe_length review.helpfulVotes userId
    have hlenpos : 1 ≤ review.helpfulVotes.length := List.length_pos_of_mem hmem2
    refine ⟨by rw [hout1]; rfl, ⟨_, by rw [hst2]; exact hfind2, by simpa using hmem2⟩,
      by rw [hst2, hout2]; rfl, ?_, ?_⟩
    · rw [hst2, hout2]
      simp only [List.length_append, List.length_cons, List.length_nil, hlen1]
      congr 1
      omega
    · refine ⟨{ review with helpfulVotes :=
          (review.helpfulVotes.filter (fun u => u != userId)) ++ [userId] }, ?_, ?_, ?_⟩
      · rw [hst2, hout2]
        exact findById_replaceById _ reviewId _ hrid _ hfind2
      · intro v
        simp only [List.mem_append, List.mem_singleton, mem_filterNe]
        constructor
        · rintro (⟨hv, -⟩ | rfl)
          · exact hv
          · exact hmem2
        · intro hv
          by_cases hvu : v = userId
          · exact Or.inr hvu
          · exact Or.inl ⟨hv, hvu⟩
      · simp only [List.length_append, List.length_cons, List.length_nil, hlen1]
        omega
  · -- the user is absent: the first call adds, the second removes
    have hmem2 : ¬ userId ∈ review.helpfulVotes := by simpa using hmem
    have hout1 : markReviewAsHelpful store userId reviewId
        = ((apiOk 200 "Marked review as helpful",
            some (review.helpfulVotes ++ [userId]).length),
           replaceById store reviewId
             { review with helpfulVotes := review.helpfulVotes ++ [userId] }) := by
      unfold markReviewAsHelpful
      rw [hfind]
      dsimp only
      rw [if_neg hmem, reviewValid_votes, if_neg hvne]
    have hst2 : (markReviewAsHelpful store userId reviewId).2
        = replaceById store reviewId
            { review with helpfulVotes := review.helpfulVotes ++ [userId] } := by
      rw [hout1]
    have hfind2 : findById (replaceById store reviewId
          { review with helpfulVotes := review.helpfulVotes ++ [userId] }) reviewId
        = some { review with helpfulVotes := review.helpfulVotes ++ [userId] } :=
      findById_replaceById store reviewId _ hrid review hfind
    have hmem3 : ((review.helpfulVotes ++ [userId]).contains userId) = true := by
      simp
    have hfilter : (review.helpfulVotes ++ [userId]).filter (fun u => u != userId)
        = review.helpfulVotes := by
      rw [List.filter_append, filterNe_eq_self review.helpfulVotes userId hmem2]
      simp
    have hout2 : markReviewAsHelpful (replaceById store reviewId
          { review with helpfulVotes := review.helpfulVotes ++ [userId] }) userId reviewId
        = ((apiOk 200 "Removed helpful mark from review",
            some ((review.helpfulVotes ++ [userId]).filter (fun u => u != userId)).length),
           replaceById (replaceById store reviewId
             { review with helpfulVotes := review.helpfulVotes ++ [userId] }) reviewId
             { review with helpfulVotes :=
                 (review.helpfulVotes ++ [userId]).filter (fun u => u != userId) }) := by
      unfold markReviewAsHelpful
      rw [hfind2]
      dsimp only
      rw [if_pos hmem3, reviewValid_votes, if_neg hvne]
    refine ⟨by rw [hout1]; rfl, ⟨_, by rw [hst2]; exact hfind2, by simpa using hmem2⟩,
      by rw [hst2, hout2]; rfl, ?_, ?_⟩
    · rw [hst2, hout2, hfilter]
    · refine ⟨{ review with helpfulVotes :=
          (review.helpfulVotes ++ [userId]).filter (fun u => u != userId) }, ?_, ?_, ?_⟩
      · rw [hst2, hout2]
        exact findById_replaceById _ reviewId _ hrid _ hfind2
      · intro v
        simp [hfilter]
      · simp [hfilter]

/-- A stored review with two helpful votes, used by the toggle witness. -/
def votedDemo : Review :=
  { statReview 1 5 with helpfulVotes := [3, 4] }

/-- Witness for C9: toggling user 4 twice on a review whose vote set is
[3, 4] succeeds twice, returns the count to 2, and restores the
membership. -/
theorem c9_toggle_twice_restores_witness :
    (markReviewAsHelpful [votedDemo] 4 1).1.1.success = true ∧
    (∃ r1, findById (markReviewAsHelpful [votedDemo] 4 1).2 1 = some r1 ∧
      (4 ∈ votedDemo.helpfulVotes ↔ 4 ∉ r1.helpfulVotes)) ∧
    (markReviewAsHelpful (markReviewAsHelpful [votedDemo] 4 1).2 4 1).1.1.success = true ∧
    (markReviewAsHelpful (markReviewAsHelpful [votedDemo] 4 1).2 4 1).1.2
      = some votedDemo.helpfulVotes.length ∧
    ∃ r2, findById (markReviewAsHelpful (markReviewAsHelpful [votedDemo] 4 1).2 4 1).2 1
        = some r2 ∧
      (∀ v : Nat, v ∈ r2.helpfulVotes ↔ v ∈ votedDemo.helpfulVotes) ∧
      r2.helpfulVotes.length = votedDemo.helpfulVotes.length :=
  c9_toggle_twice_restores [votedDemo] 4 1 votedDemo (by decide) (by decide) (by decide)


/-! updateReview and deleteReview of src/controllers/reviewController.js. -/

/-- JS truthiness of an optional number: undefined and 0 are falsy. -/
def optNatTruthy (x : Option Nat) : Bool :=
  match x with
  | none => false
  | some v => v != 0

/-- The authenticated user and body of a PUT /api/reviews/:id request
(reviewController.js:290-299). -/
structure UpdateReq where
  userId : Nat
  reviewId : Nat
  rating : Option Nat
  content : Option String
  communication : Option Nat
  quality : Option Nat
  expertise : Option Nat
  deadlineAdherence : Option Nat
  overallExperience : Option Nat
  isPublic : Option Bool
deriving Repr, DecidableEq

/-- updateReview (reviewController.js:267-332).  nowDay is the current
time in days; the window check compares createdAt against nowDay - 30.
The body also writes `review.content` and `review.categories.*`: `content`
is not a reviewSchema path, so the strict-mode document drops that write,
and `categories` is not a path either, so `review.categories` is undefined
and assigning any category field throws a TypeError that the catch-all
turns into a 500 response before save is reached.  Only `rating`
(kept unless the body field is truthy, hence jsOrNat) and `isPublic`
(assigned whenever defined) reach the stored document.  The notification dispatched after
save does not touch the review store. -/
def updateReview (store : List Review) (nowDay : Nat) (req : UpdateReq) :
    Resp × List Review :=
  match findById store req.reviewId with
  | none => (apiErr 404 "Review not found", store)
  | some review =>
    if review.reviewer != req.userId then
      (apiErr 403 "You can only update your own reviews", store)
    else if review.createdAt < nowDay - 30 then
      (apiErr 400 "Reviews can only be updated within 30 days of creation", store)
    else if optNatTruthy req.communication || optNatTruthy req.quality ||
        optNatTruthy req.expertise || optNatTruthy req.deadlineAdherence ||
        optNatTruthy req.overallExperience then
      (apiErr 500 "Cannot set properties of undefined", store)
    else
      let r2 := { review with
                  rating := jsOrNat req.rating review.rating
                  isPublic := req.isPublic.getD review.isPublic }
      if reviewValid r2 = false then
        (apiErr 500 "Review validation failed", store)
      else
        (apiOk 200 "Review updated successfully", replaceById store req.reviewId r2)

/-- deleteReview (reviewController.js:339-360): only the review author or
an admin may delete; deletion removes the row. -/
def deleteReview (store : List Review) (userId : Nat) (role : String) (reviewId : Nat) :
    Resp × List Review :=
  match findById store reviewId with
  | none => (apiErr 404 "Review not found", store)
  | some review =>
    if review.reviewer != userId && role != "admin" then
      (apiErr 403 "You can only delete your own reviews", store)
    else
      (apiOk 200 "Review deleted successfully", removeById store reviewId)

/-- A successful insert appends the built document. -/
theorem dbCreate_ok (store : List Review) (r : Review) (st2 : List Review)
    (h : dbCreate store r = .ok st2) : st2 = store ++ [r] := by
  unfold dbCreate at h
  split at h
  · exact absurd h (by simp)
  · split at h
    · exact absurd h (by simp)
    · exact (Except.ok.inj h).symm

/-- The author of review 1 (reviewer 31, created on day 1) updates the
rating from 5 to 4 on day 10. -/
def updDemo : UpdateReq :=
  { userId := 31, reviewId := 1, rating := some 4, content := none,
    communication := none, quality := none, expertise := none,
    deadlineAdherence := none, overallExperience := none, isPublic := none }

/-- Counterexample to claim C8: updateReview is an exposed operation
outside the report/moderation flows, yet it changes stored review
content: the author of review 1 changes its rating from 5 to 4 within the
30-day window, the call succeeds, and the stored review differs
afterwards. -/
theorem c8_updateReview_changes_content :
    (updateReview [statReview 1 5] 10 updDemo).1.success = true ∧
    findById (updateReview [statReview 1 5] 10 updDemo).2 1 ≠ some (statReview 1 5) ∧
    (findById (updateReview [statReview 1 5] 10 updDemo).2 1).map Review.rating = some 4 := by
  decide

/-- Claim C8 as amended: no exposed operation ever reassigns the job,
reviewer or recipient of a stored Review, and deletion is performed only
by the review author or an administrator; but the record is not fully
immutable outside the report/moderation flows — updateReview lets the
author (and nobody else) replace the stored rating and isPublic flag,
and toggleHelpfulVote updates the helpful-vote set; every other stored
field changes only through the report flow, and the admin moderation
endpoint never changes the store at all.  Conjunct by conjunct:
createReview only appends, updateReview rewrites at most rating and
isPublic of the author's own review, deleteReview removes a row only for
the author or an admin, markReviewAsHelpful rewrites only helpfulVotes,
reportReview rewrites only the report fields and only for the recipient,
and handleReportedReview preserves the store. -/
theorem c8_review_frame (store : List Review) :
    (∀ env snapshot nOk fid now req, ∃ ext,
      (createReview env snapshot store nOk fid now req).2 = store ++ ext) ∧
    (∀ nowDay req, (updateReview store nowDay req).2 = store ∨
      ∃ review r2, findById store req.reviewId = some review ∧
        review.reviewer = req.userId ∧
        (updateReview store nowDay req).2 = replaceById store req.reviewId r2 ∧
        r2.rid = review.rid ∧ r2.job = review.job ∧ r2.reviewer = review.reviewer ∧
        r2.recipient = review.recipient ∧ r2.comment = review.comment ∧
        r2.rtype = review.rtype ∧ r2.communication = review.communication ∧
        r2.qualityOfWork = review.qualityOfWork ∧ r2.valueForMoney = review.valueForMoney ∧
        r2.expertise = review.expertise ∧ r2.professionalism = review.professionalism ∧
        r2.helpfulVotes = review.helpfulVotes ∧ r2.isReported = review.isReported ∧
        r2.reportReason = review.reportReason ∧ r2.reportedBy = review.reportedBy ∧
        r2.reportedAt = review.reportedAt ∧ r2.isHidden = review.isHidden ∧
        r2.moderationReason = review.moderationReason ∧ r2.createdAt = review.createdAt) ∧
    (∀ userId role reviewId, (deleteReview store userId role reviewId).2 = store ∨
      ∃ review, findById store reviewId = some review ∧
        (review.reviewer = userId ∨ role = "admin") ∧
        (deleteReview store userId role reviewId).2 = removeById store reviewId) ∧
    (∀ userId reviewId, (markReviewAsHelpful store userId reviewId).2 = store ∨
      ∃ review r2, findById store reviewId = some review ∧
        (markReviewAsHelpful store userId reviewId).2 = replaceById store reviewId r2 ∧
        r2.rid = review.rid ∧ r2.job = review.job ∧ r2.reviewer = review.reviewer ∧
        r2.recipient = review.recipient ∧ r2.rating = review.rating ∧
        r2.comment = review.comment ∧ r2.isPublic = review.isPublic ∧
        r2.rtype = review.rtype ∧ r2.communication = review.communication ∧
        r2.qualityOfWork = review.qualityOfWork ∧ r2.valueForMoney = review.valueForMoney ∧
        r2.expertise = review.expertise ∧ r2.professionalism = review.professionalism ∧
        r2.isReported = review.isReported ∧ r2.reportReason = review.reportReason ∧
        r2.reportedBy = review.reportedBy ∧ r2.reportedAt = review.reportedAt ∧
        r2.isHidden = review.isHidden ∧ r2.moderationReason = review.moderationReason ∧
        r2.createdAt = review.createdAt) ∧
    (∀ userId reviewId reason now,
      (reportReview store userId reviewId reason now).2 = store ∨
      ∃ review, findById store reviewId = some review ∧ review.recipient = userId ∧
        (reportReview store userId reviewId reason now).2
          = replaceById store reviewId
              { review with
                isReported := true
                reportReason := reason
                reportedBy := some userId
                reportedAt := some now }) ∧
    (∀ reviewId action, (handleReportedReview store reviewId action).2 = store) := by
  refine ⟨?_, ?_, ?_, ?_, ?_, ?_⟩
  · intro env snapshot nOk fid now req
    unfold createReview
    split
    · exact ⟨[], by simp⟩
    · split
      · exact ⟨[], by simp⟩
      · dsimp only
        split
        · exact ⟨[], by simp⟩
        · split
          · exact ⟨[], by simp⟩
          · split
            · exact ⟨[], by simp⟩
            · split
              · exact ⟨[], by simp⟩
              · split
                · split
                  · exact ⟨[], by simp⟩
                  · exact ⟨[], by simp⟩
                case h_2 st2 heq =>
                  refine ⟨[buildReview req (derivedType req.role) fid now], ?_⟩
                  have := dbCreate_ok _ _ _ heq
                  split <;> simpa using this
  · intro nowDay req
    unfold updateReview
    split
    · exact Or.inl rfl
    case h_2 review heq =>
      split
      · exact Or.inl rfl
      case isFalse hauth =>
        split
        · exact Or.inl rfl
        · split
          · exact Or.inl rfl
          · dsimp only
            split
            · exact Or.inl rfl
            · refine Or.inr ⟨review, _, heq, ?_, rfl,
                rfl, rfl, rfl, rfl, rfl, rfl, rfl, rfl, rfl, rfl, rfl, rfl, rfl,
                rfl, rfl, rfl, rfl, rfl, rfl⟩
              simpa using hauth
  · intro userId role reviewId
    unfold deleteReview
    split
    · exact Or.inl rfl
    case h_2 review heq =>
      split
      · exact Or.inl rfl
      case isFalse hperm =>
        refine Or.inr ⟨review, heq, ?_, rfl⟩
        by_cases hrev : review.reviewer = userId
        · exact Or.inl hrev
        · refine Or.inr ?_
          by_contra hrole
          exact hperm (by simp [hrev, hrole])
  · intro userId reviewId
    unfold markReviewAsHelpful
    split
    · exact Or.inl rfl
    case h_2 review heq =>
      dsimp only
      split
      · split
        · exact Or.inl rfl
        · exact Or.inr ⟨review, _, heq, rfl, rfl, rfl, rfl, rfl, rfl, rfl, rfl,
            rfl, rfl, rfl, rfl, rfl, rfl, rfl, rfl, rfl, rfl, rfl, rfl, rfl⟩
      · split
        · exact Or.inl rfl
        · exact Or.inr ⟨review, _, heq, rfl, rfl, rfl, rfl, rfl, rfl, rfl, rfl,
            rfl, rfl, rfl, rfl, rfl, rfl, rfl, rfl, rfl, rfl, rfl, rfl, rfl⟩
  · intro userId reviewId reason now
    unfold reportReview
    split
    · exact Or.inl rfl
    · split
      · exact Or.inl rfl
      case h_2 review heq =>
        split
        case isFalse hrcp =>
          dsimp only
          split
          · exact Or.inl rfl
          · exact Or.inr ⟨review, heq, by simpa using hrcp, rfl⟩
        case isTrue hrcp => exact Or.inl rfl
  · intro reviewId action
    exact handleReportedReview_preserves store reviewId action

/-! getUserReviews of src/controllers/reviewController.js:155-211. -/

/-- Math.ceil(a / b) for natural a and positive b. -/
def ceilDiv (a b : Nat) : Nat := (a + b - 1) / b

/-- The outcome of getUserReviews: an error response, or the page of
reviews with the aggregate stats, pagination data and total count. -/
inductive UserReviewsResult where
  | failure (e : Resp)
  | ok (reviews : List Review) (stats : ReviewStats)
       (page limit totalReviews totalPages : Nat)
deriving Repr, DecidableEq

/-- The Mongo sort {createdAt: -1} applied before pagination. -/
def sortByCreatedDesc (l : List Review) : List Review :=
  l.insertionSort (fun a b => b.createdAt ≤ a.createdAt)

/-- getUserReviews (reviewController.js:155-211): parseInt(page) || 1 and
parseInt(limit) || 10 defaults, the user existence check, then the query
{recipient: userId} restricted to isPublic unless the authenticated
caller is the queried user (caller is none when unauthenticated), the
count over that query, the sorted and paginated page, and the aggregate
stats. -/
def getUserReviews (env : Env) (store : List Review) (caller : Option Nat)
    (userId : Nat) (pageQ limitQ : Option Nat) : UserReviewsResult :=
  let page := match pageQ with
              | some p => if p == 0 then 1 else p
              | none => 1
  let limit := match limitQ with
               | some l => if l == 0 then 10 else l
               | none => 10
  let skip := (page - 1) * limit
  match env.users.lookup userId with
  | none => .failure (apiErr 404 "User not found")
  | some _ =>
    let query : Review → Bool :=
      if caller = none ∨ caller ≠ some userId then
        fun r => r.recipient == userId && r.isPublic
      else
        fun r => r.recipient == userId
    let total := (store.filter query).length
    let reviews := ((sortByCreatedDesc (store.filter query)).drop skip).take limit
    .ok reviews (getReviewStats store userId) page limit total (ceilDiv total limit)

/-- Claim C10: a caller who is unauthenticated or is not the queried
recipient receives only isPublic reviews — non-public reviews are
excluded from both the returned page and the total count — whereas the
recipient querying their own reviews is counted over all their reviews
and, whenever the page is large enough to hold them, receives every one
of them including the non-public ones. -/
theorem c10_public_visibility (env : Env) (store : List Review) (userId : Nat) :
    (∀ (caller : Option Nat) (pageQ limitQ : Option Nat), caller ≠ some userId →
      ∀ rs st p l tot tp,
        getUserReviews env store caller userId pageQ limitQ = .ok rs st p l tot tp →
        (∀ r ∈ rs, r.isPublic = true ∧ r.recipient = userId) ∧
        tot = (store.filter (fun r => r.recipient == userId && r.isPublic)).length) ∧
    (∀ (limit : Nat), 0 < limit →
      ∀ rs st p l tot tp,
        getUserReviews env store (some userId) userId (some 1) (some limit)
          = .ok rs st p l tot tp →
        tot = (store.filter (fun r => r.recipient == userId)).length ∧
        (tot ≤ limit → ∀ r ∈ store, r.recipient = userId → r ∈ rs)) := by
  constructor
  · intro caller pageQ limitQ hne rs st p l tot tp heq
    unfold getUserReviews at heq
    cases hu : env.users.lookup userId with
    | none => rw [hu] at heq; exact absurd heq (by simp)
    | some u =>
      rw [hu] at heq
      dsimp only at heq
      rw [if_pos (Or.inr hne)] at heq
      obtain ⟨hrs, -, -, -, htot, -⟩ := UserReviewsResult.ok.inj heq
      constructor
      · intro r hr
        have hr2 : r ∈ sortByCreatedDesc
            (store.filter (fun r => r.recipient == userId && r.isPublic)) := by
          rw [← hrs] at hr
          exact List.drop_subset _ _ (List.take_subset _ _ hr)
        have hr3 : r ∈ store.filter (fun r => r.recipient == userId && r.isPublic) :=
          (List.perm_insertionSort _ _).subset hr2
        have hq : r.recipient = userId ∧ r.isPublic = true := by
          simpa using List.of_mem_filter hr3
        exact ⟨hq.2, hq.1⟩
      · exact htot.symm
  · intro limit hlim rs st p l tot tp heq
    unfold getUserReviews at heq
    cases hu : env.users.lookup userId with
    | none => rw [hu] at heq; exact absurd heq (by simp)
    | some u =>
      rw [hu] at heq
      dsimp only at heq
      have h10 : ((1 : Nat) == 0) = false := by decide
      have hl0 : ((limit == 0) : Bool) = false := beq_eq_false_iff_ne.mpr hlim.ne'
      simp only [h10, hl0, Bool.false_eq_true, if_false] at heq
      rw [if_neg (by simp)] at heq
      obtain ⟨hrs, -, -, -, htot, -⟩ := UserReviewsResult.ok.inj heq
      refine ⟨htot.symm, ?_⟩
      intro hle r hr hrcp
      have hmem : r ∈ store.filter (fun r => r.recipient == userId) :=
        List.mem_filter.mpr ⟨hr, by simpa using hrcp⟩
      have hmem2 : r ∈ sortByCreatedDesc (store.filter (fun r => r.recipient == userId)) :=
        ((List.perm_insertionSort _ _).mem_iff).mpr hmem
      have hlen : (sortByCreatedDesc (store.filter (fun r => r.recipient == userId))).length
          ≤ limit := by
        rw [sortByCreatedDesc, List.length_insertionSort]
        rw [← htot] at hle
        exact hle
      rw [← hrs]
      simp only [Nat.sub_self, Nat.zero_mul, List.drop_zero]
      rw [List.take_of_length_le hlen]
      exact hmem2

/-- A user collection holding only the queried recipient 7. -/
def envU7 : Env := { jobs := [], users := [(7, { role := "client" })] }

/-- A public review for recipient 7. -/
def pubDemo : Review := statReview 1 5

/-- A non-public review for recipient 7. -/
def privDemo : Review := { statReview 2 4 with isPublic := false }

/-- Witness for C10: an unauthenticated caller sees only the public
review of recipient 7 and a count of 1, while recipient 7 is counted over
both reviews and receives the non-public one as well. -/
theorem c10_public_visibility_witness :
    ((∀ r ∈ [pubDemo], r.isPublic = true ∧ r.recipient = 7) ∧
     (1 : Nat) = ([pubDemo, privDemo].filter (fun r => r.recipient == 7 && r.isPublic)).length) ∧
    ((2 : Nat) = ([pubDemo, privDemo].filter (fun r => r.recipient == 7)).length ∧
     ((2 : Nat) ≤ 10 → ∀ r ∈ [pubDemo, privDemo], r.recipient = 7 → r ∈ [privDemo, pubDemo])) :=
  ⟨(c10_public_visibility envU7 [pubDemo, privDemo] 7).1 none none none (by decide)
      [pubDemo] (getReviewStats [pubDemo, privDemo] 7) 1 10 1 1 rfl,
   (c10_public_visibility envU7 [pubDemo, privDemo] 7).2 10 (by decide)
      [privDemo, pubDemo] (getReviewStats [pubDemo, privDemo] 7) 1 10 2 1 rfl⟩

end GWF
